import Mathlib

/-!
Verification of the AgentFramework Plan-and-Execute workflow core.

Shallow embedding of the Python sources under `backend/`:
  * `backend/state/models.py`   — `TaskStep`, `AgentState`
  * `backend/agents/supervisor.py` — `SupervisorAgent.route`
  * `backend/agents/executor.py`   — `ExecutorAgent.execute_step`, `_execute_tool_step`
  * `backend/agents/planner.py`    — `PlannerAgent.plan`
  * `backend/agents/validator.py`  — `ValidatorAgent.validate`
  * `backend/tools/registry.py`    — `ToolRegistry`
  * `backend/graph/workflow.py`    — `AgentWorkflow.resume` and the routed loop
  * `backend/config/settings.py`   — `MAX_TASK_STEPS`, `MAX_RETRY_COUNT`

External effects (the chat-generator LLM, the knowledge base, registered tool
invocations, clock readings and uuid generation) are modelled as explicit
environment records passed to the agent functions; timestamps are abstract
`Nat` instants supplied by the environment.
-/

namespace AgentFramework

/-- JSON-like values: the shape of `json.loads` output, tool arguments and
tool results exchanged by the Executor with the LLM and the tools. -/
inductive JValue where
  | null
  | bool (b : Bool)
  | num (n : Int)
  | str (s : String)
  | arr (xs : List JValue)
  | obj (fields : List (String × JValue))

/-- A Python `dict` with string keys, in insertion order. -/
abbrev Dict := List (String × JValue)

/-- Python truthiness of a JSON value (`bool(v)`). -/
def JValue.truthy : JValue → Bool
  | .null => false
  | .bool b => b
  | .num n => n != 0
  | .str s => s != ""
  | .arr xs => !xs.isEmpty
  | .obj fields => !fields.isEmpty

/-- Truthiness of `d.get(k)`-style lookups: `None` is falsy. -/
def optTruthy : Option JValue → Bool
  | none => false
  | some v => v.truthy

/-- `d.get(k)` on an insertion-ordered association list. -/
def assocGet {α : Type} (d : List (String × α)) (k : String) : Option α :=
  (d.find? (fun p => p.1 == k)).map (fun p => p.2)

/-- `d[k] = v` on an insertion-ordered association list: replace the first
binding of `k` in place, else append. -/
def assocSet {α : Type} (d : List (String × α)) (k : String) (v : α) :
    List (String × α) :=
  match d with
  | [] => [(k, v)]
  | (k', v') :: rest =>
      if k' == k then (k', v) :: rest else (k', v') :: assocSet rest k v

/-- `dict.get` on a JSON object dict. -/
def dictGet (d : Dict) (k : String) : Option JValue := assocGet d k

/-- Python truthiness of an `Optional[Dict]`: `None` and `{}` are falsy. -/
def dictTruthy : Option Dict → Bool
  | none => false
  | some d => !d.isEmpty

/-- Python truthiness of an `Optional[str]`: `None` and `""` are falsy. -/
def strOptTruthy : Option String → Bool
  | none => false
  | some s => s != ""

/-- Python `a or b` for an optional string `a` with a string default `b`. -/
def pyOr (a : Option String) (b : String) : String :=
  match a with
  | some s => if s == "" then b else s
  | none => b

/-- Rendering of an `Optional[str]` inside a Python f-string (`None` prints). -/
def pyStrOfOption : Option String → String
  | some s => s
  | none => "None"

/-- `models.py`: `TaskStatus = Literal["pending", "running", "completed", "failed"]`. -/
inductive TaskStatus where
  | pending
  | running
  | completed
  | failed
deriving DecidableEq

/-- `models.py`: `final_status: Literal["success", "failed", "pending"]`. -/
inductive FinalStatus where
  | pending
  | success
  | failed
deriving DecidableEq

/-- `models.py`: `TaskStep` — one atomic unit of work.  Timestamps are
abstract `Nat` instants. -/
structure TaskStep where
  id : String
  title : String
  description : Option String := none
  status : TaskStatus := .pending
  tool_name : Option String := none
  tool_input : Option Dict := none
  tool_output : Option JValue := none
  error : Option String := none
  retry_count : Nat := 0
  started_at : Option Nat := none
  completed_at : Option Nat := none

/-- One record of `state["step_results"]`:
`{step_id, step_title, result: step.tool_output}`. -/
structure StepResult where
  step_id : String
  step_title : String
  result : Option JValue

/-- `executor.py`: the dict stored in `state["pending_user_input"]`:
`{step_id, tool_name, missing_params, reason}`. -/
structure PendingUserInput where
  step_id : String
  tool_name : Option String
  missing_params : Option JValue
  reason : Option JValue

/-- `models.py`: `ParsedIntent` (the `confidence` float is irrelevant to the
claims and omitted from the embedding). -/
structure ParsedIntent where
  goal : String
  required_tools : List String := []
  required_info : Dict := []

/-- `models.py`: `AgentState` — the single value threaded through the
workflow.  `created_at`/`updated_at` are abstract `Nat` instants. -/
structure AgentState where
  user_input : String
  conversation_id : String := ""
  user_id : String := ""
  parsed_intent : Option ParsedIntent := none
  todo_list : List TaskStep := []
  current_step_index : Nat := 0
  step_results : List StepResult := []
  context : Dict := []
  retrieved_docs : List String := []
  pending_user_input : Option PendingUserInput := none
  user_provided_config : Option Dict := none
  current_agent : String := "supervisor"
  final_status : FinalStatus := .pending
  error_info : Option String := none
  created_at : Nat := 0
  updated_at : Nat := 0

/-- `settings.py`: `MAX_TASK_STEPS: int = 20`. -/
def MAX_TASK_STEPS : Nat := 20

/-- `settings.py`: `MAX_RETRY_COUNT: int = 3`. -/
def MAX_RETRY_COUNT : Nat := 3

/-- The four routing targets of `SupervisorAgent.route`. -/
inductive Route where
  | planner
  | executor
  | validator
  | end_
deriving DecidableEq

/-- `supervisor.py`, `SupervisorAgent.route`: decide the next node from the
current state, rule by rule in source order. -/
def route (state : AgentState) : Route :=
  -- 1. 如果任务失败，结束
  if state.final_status = .failed then .end_
  -- 2. 如果任务成功完成，结束
  else if state.final_status = .success then .end_
  -- 3. 如果等待用户输入，暂停
  else if state.pending_user_input.isSome then .end_
  -- 4. 如果还没有 TODO 列表，执行 Planner
  else if state.todo_list.isEmpty then .planner
  -- 5. 如果 TODO 列表存在但未执行完，执行 Executor
  else if state.current_step_index < state.todo_list.length then .executor
  -- 6. 所有步骤执行完成，执行 Validator
  else if state.todo_list.length ≤ state.current_step_index ∧
          state.final_status ≠ .success then .validator
  -- 默认结束
  else .end_

/-- Routing rules as the specification states them (first match wins):
`final_status ∈ {success, failed}` ⇒ end; `pending_user_input` set ⇒ end;
`todo_list` empty ⇒ planner; `current_step_index < len` ⇒ executor;
`current_step_index ≥ len` and `final_status ≠ success` ⇒ validator;
default ⇒ end. -/
def routeSpec (state : AgentState) : Route :=
  if state.final_status = .success ∨ state.final_status = .failed then .end_
  else if state.pending_user_input.isSome then .end_
  else if state.todo_list.isEmpty then .planner
  else if state.current_step_index < state.todo_list.length then .executor
  else if state.todo_list.length ≤ state.current_step_index ∧
          state.final_status ≠ .success then .validator
  else .end_

/-- Outcome of one awaited tool invocation
(`asyncio.wait_for(tool.ainvoke(step.tool_input), timeout=...)`):
a returned value, an `asyncio.TimeoutError`, or a raised error message. -/
inductive ToolOutcome where
  | ok (v : JValue)
  | timeout
  | err (msg : String)

/-- A registered tool function: an argument dict to an invocation outcome. -/
abbrev Invoker := Dict → ToolOutcome

/-- `registry.py`: `ToolSchema`.  `timeout` is in abstract seconds. -/
structure ToolSchema where
  name : String
  description : String
  parameters : Dict := []
  returns : Dict := []
  requires_auth : Bool := false
  requires_user_config : Bool := false
  config_schema : Option Dict := none
  timeout : Nat := 60
  tags : List String := []

/-- The `context` dict built by `ExecutorAgent._execute_tool_step` for the
parameter-filling prompt. -/
structure SynthContext where
  user_input : String
  previous_results : List StepResult
  retrieved_knowledge : List String

/-- Environment of `ExecutorAgent.execute_step`: the global tool registry
lookups, the parameter-filling LLM call (its output after `json.loads`;
`none` models a `JSONDecodeError`), and the clock.  `getTool` and
`getSchema` model `tool_registry.get_tool` / `get_schema`; the registry
registers both together, so they are defined on the same names. -/
structure ExecEnv where
  getTool : String → Option Invoker
  getSchema : String → Option ToolSchema
  synth : String → String → Dict → SynthContext → Option JValue
  now : Nat

/-- `executor.py`, `ExecutorAgent._execute_tool_step`: look the tool up,
synthesise parameters when `step.tool_input` is absent or empty, then invoke
the tool under the schema timeout.  Returns the step as mutated so far
(Python mutates the aliased list element in place) together with either the
returned result dict or the message of a raised exception. -/
def executeToolStep (env : ExecEnv) (step : TaskStep) (state : AgentState) :
    TaskStep × Except String Dict :=
  let tool_name := step.tool_name.getD ""
  match env.getTool tool_name with
  | none => (step, .error ("Tool not found: " ++ tool_name))
  | some tool =>
    match env.getSchema tool_name with
    | none =>
      -- unreachable via the registry: tools and schemas are registered together
      (step, .error "AttributeError: NoneType object has no attribute parameters")
    | some tool_schema =>
      -- 1. 参数填充 (parameter filling when tool_input is absent or empty)
      let filled : TaskStep × Option (Except String Dict) :=
        if dictTruthy step.tool_input then (step, none)
        else
          let context : SynthContext :=
            { user_input := state.user_input
              previous_results := state.step_results
              retrieved_knowledge := state.retrieved_docs }
          let tool_input : JValue :=
            (env.synth (pyOr step.description step.title) tool_name
              tool_schema.parameters context).getD (.obj [])
          match tool_input with
          | .obj fields =>
            if optTruthy (dictGet fields "requires_user_input") then
              -- sentinel: return it to execute_step without touching the step
              (step, some (.ok fields))
            else
              ({ step with tool_input := some fields }, none)
          | _ =>
            -- json.loads produced a non-dict: `.get` raises AttributeError
            (step, some (.error "AttributeError: object has no attribute get"))
      match filled with
      | (step, some out) => (step, out)
      | (step, none) =>
        -- 2. 执行 Tool（带超时）
        match tool (step.tool_input.getD []) with
        | .ok result => (step, .ok [("success", .bool true), ("data", result)])
        | .timeout =>
          (step, .error ("Tool execution timeout after " ++
            toString tool_schema.timeout ++ "s"))
        | .err msg => (step, .error ("Tool execution failed: " ++ msg))

/-- `executor.py`, `ExecutorAgent.execute_step`, steps 2–3 of the success
path: write the completed step back, append its record to `step_results`,
advance `current_step_index` and stamp `updated_at`. -/
def execute_step_finish (env : ExecEnv) (state : AgentState)
    (current_index : Nat) (step : TaskStep) : AgentState :=
  let state := { state with todo_list := state.todo_list.set current_index step }
  let record : StepResult :=
    { step_id := step.id, step_title := step.title, result := step.tool_output }
  let state := { state with step_results := state.step_results ++ [record] }
  { state with current_step_index := current_index + 1, updated_at := env.now }

/-- `executor.py`, `ExecutorAgent.execute_step`, the `except` clause: mark
the current step failed, record the message, bump `retry_count`; reset the
step to pending while `retry_count < MAX_RETRY_COUNT`, else fail the state
terminally. -/
def execute_step_except (state : AgentState) (msg : String) : AgentState :=
  match state.todo_list.get? state.current_step_index with
  | none => state   -- unreachable: the raising path indexed the same position
  | some current_step =>
    let current_step := { current_step with
      status := .failed, error := some msg,
      retry_count := current_step.retry_count + 1 }
    if current_step.retry_count < MAX_RETRY_COUNT then
      let current_step := { current_step with status := TaskStatus.pending }
      { state with todo_list := state.todo_list.set state.current_step_index current_step }
    else
      { state with
          todo_list := state.todo_list.set state.current_step_index current_step,
          error_info := some ("Step failed after " ++ toString MAX_RETRY_COUNT ++
            " retries: " ++ msg),
          final_status := .failed }

/-- `executor.py`, `ExecutorAgent.execute_step`: execute the current step —
mark it running, run the tool path or the no-tool path, suspend on the
`requires_user_input` sentinel, and fold any raised error into the retry
branch. -/
def execute_step (env : ExecEnv) (state : AgentState) : AgentState :=
  let current_index := state.current_step_index
  let todo_list := state.todo_list
  if current_index < todo_list.length then
    match todo_list.get? current_index with
    | none => state   -- unreachable under the length guard
    | some current_step =>
    -- 更新步骤状态为运行中
    let current_step := { current_step with
      status := .running, started_at := some env.now }
    let state1 := { state with
      todo_list := todo_list.set current_index current_step,
      current_agent := "executor" }
    if strOptTruthy current_step.tool_name then
      match executeToolStep env current_step state1 with
      | (step2, .ok result) =>
        if optTruthy (dictGet result "requires_user_input") then
          -- 需要用户输入，暂停执行
          let pending : PendingUserInput :=
            { step_id := step2.id
              tool_name := step2.tool_name
              missing_params := dictGet result "missing_params"
              reason := dictGet result "reason" }
          { state1 with pending_user_input := some pending }
        else
          -- 执行成功
          let step3 := { step2 with
            tool_output := some (JValue.obj result),
            status := .completed, completed_at := some env.now }
          execute_step_finish env state1 current_index step3
      | (step2, .error msg) =>
        execute_step_except
          { state1 with todo_list := state1.todo_list.set current_index step2 } msg
    else
      -- 不需要 Tool 的步骤
      let step3 := { current_step with
        status := .completed, completed_at := some env.now }
      execute_step_finish env state1 current_index step3
  else
    -- if current_index >= len(todo_list): all steps completed
    { state with final_status := .success }

end AgentFramework

namespace AgentFramework

/-- Claim C1: the Supervisor's route function returns, by first matching
rule: end when `final_status` is success or failed; end when
`pending_user_input` is set; planner when `todo_list` is empty; executor
when `current_step_index < len(todo_list)`; validator when
`current_step_index ≥ len(todo_list)` and `final_status` is not success;
and end otherwise. -/
theorem route_eq_routeSpec (state : AgentState) : route state = routeSpec state := by
  unfold route routeSpec
  cases h : state.final_status <;> simp [h]

end AgentFramework

namespace AgentFramework

/-- If `pending_user_input` is set, the Supervisor routes to end, whatever
the rest of the state says. -/
theorem route_of_pending (s : AgentState) (h : s.pending_user_input.isSome) :
    route s = .end_ := by
  cases hf : s.final_status <;> simp [route, hf, h]

/-- The Supervisor routes to the Executor whenever the task is still pending,
no user input is awaited and the current index is in range. -/
theorem route_executor (s : AgentState) (hfs : s.final_status = .pending)
    (hpu : s.pending_user_input = none)
    (h : s.current_step_index < s.todo_list.length) : route s = .executor := by
  have hne : s.todo_list.isEmpty = false := by
    cases hl : s.todo_list with
    | nil => rw [hl] at h; simp at h
    | cons a l => simp [hl]
  simp [route, hfs, hpu, hne, h]

/-- A failed task routes to end. -/
theorem route_failed (s : AgentState) (hfs : s.final_status = .failed) :
    route s = .end_ := by
  simp [route, hfs]

/-- Full description of `execute_step` on the suspension path: the
parameter-synthesis LLM call returns the `requires_user_input` sentinel, so
the Executor records `pending_user_input`, leaves the running step in place
and returns. -/
theorem execute_step_sentinel (env : ExecEnv) (s : AgentState)
    (h : s.current_step_index < s.todo_list.length)
    (step : TaskStep) (hstep : s.todo_list.get? s.current_step_index = some step)
    (n : String) (hn : step.tool_name = some n) (hne : (n == "") = false)
    (tool : Invoker) (htool : env.getTool n = some tool)
    (sch : ToolSchema) (hsch : env.getSchema n = some sch)
    (hti : dictTruthy step.tool_input = false)
    (fields : Dict)
    (hsynth : env.synth (pyOr step.description step.title) n sch.parameters
      { user_input := s.user_input, previous_results := s.step_results,
        retrieved_knowledge := s.retrieved_docs } = some (.obj fields))
    (hreq : optTruthy (dictGet fields "requires_user_input") = true) :
    execute_step env s = { s with
      todo_list := s.todo_list.set s.current_step_index
        { step with status := .running, started_at := some env.now },
      current_agent := "executor",
      pending_user_input := some
        { step_id := step.id, tool_name := step.tool_name,
          missing_params := dictGet fields "missing_params",
          reason := dictGet fields "reason" } } := by
  simp only [execute_step, executeToolStep, if_pos h, hstep, hn, hne, htool, hsch,
    hti, hsynth, strOptTruthy, Option.getD_some, Bool.not_eq_true]
  simp [hreq, hn]
  intro h'
  subst h'
  simp at hne

end AgentFramework

namespace AgentFramework

/-- Claim C6: when parameter synthesis for the current step returns the
`requires_user_input` sentinel, the Executor records `pending_user_input =
{step_id, tool_name, missing_params, reason}` for that step, leaves the
step's status as running, and returns the state; the Supervisor then routes
that state to end — suspension without invoking the tool. -/
theorem execute_step_suspends_on_sentinel (env : ExecEnv) (s : AgentState)
    (h : s.current_step_index < s.todo_list.length)
    (step : TaskStep) (hstep : s.todo_list.get? s.current_step_index = some step)
    (n : String) (hn : step.tool_name = some n) (hne : (n == "") = false)
    (tool : Invoker) (htool : env.getTool n = some tool)
    (sch : ToolSchema) (hsch : env.getSchema n = some sch)
    (hti : dictTruthy step.tool_input = false)
    (fields : Dict)
    (hsynth : env.synth (pyOr step.description step.title) n sch.parameters
      { user_input := s.user_input, previous_results := s.step_results,
        retrieved_knowledge := s.retrieved_docs } = some (.obj fields))
    (hreq : optTruthy (dictGet fields "requires_user_input") = true) :
    execute_step env s = { s with
      todo_list := s.todo_list.set s.current_step_index
        { step with status := .running, started_at := some env.now },
      current_agent := "executor",
      pending_user_input := some
        { step_id := step.id, tool_name := step.tool_name,
          missing_params := dictGet fields "missing_params",
          reason := dictGet fields "reason" } }
    ∧ ((execute_step env s).todo_list.get? s.current_step_index).map
        (fun st => st.status) = some .running
    ∧ route (execute_step env s) = .end_ := by
  have key := execute_step_sentinel env s h step hstep n hn hne tool htool
    sch hsch hti fields hsynth hreq
  refine ⟨key, ?_, ?_⟩
  · rw [key]
    simp only [List.get?_eq_getElem?]
    rw [List.getElem?_set_self (by simpa using h)]
    rfl
  · apply route_of_pending
    rw [key]
    rfl

/-- Claim C10: on the suspension path the Executor leaves
`current_step_index`, `step_results`, the suspended step's `retry_count`,
`tool_input` and `tool_output`, `final_status` and `error_info` all
unchanged; only `pending_user_input`, the step's `status` and `started_at`,
and `current_agent` are modified — the step is neither consumed nor counted
as a retry. -/
theorem execute_step_sentinel_frame (env : ExecEnv) (s : AgentState)
    (h : s.current_step_index < s.todo_list.length)
    (step : TaskStep) (hstep : s.todo_list.get? s.current_step_index = some step)
    (n : String) (hn : step.tool_name = some n) (hne : (n == "") = false)
    (tool : Invoker) (htool : env.getTool n = some tool)
    (sch : ToolSchema) (hsch : env.getSchema n = some sch)
    (hti : dictTruthy step.tool_input = false)
    (fields : Dict)
    (hsynth : env.synth (pyOr step.description step.title) n sch.parameters
      { user_input := s.user_input, previous_results := s.step_results,
        retrieved_knowledge := s.retrieved_docs } = some (.obj fields))
    (hreq : optTruthy (dictGet fields "requires_user_input") = true) :
    (execute_step env s).current_step_index = s.current_step_index
    ∧ (execute_step env s).step_results = s.step_results
    ∧ (execute_step env s).final_status = s.final_status
    ∧ (execute_step env s).error_info = s.error_info
    ∧ (execute_step env s).updated_at = s.updated_at
    ∧ (execute_step env s).todo_list.get? s.current_step_index =
        some { step with status := .running, started_at := some env.now }
    ∧ (∀ j, j ≠ s.current_step_index →
        (execute_step env s).todo_list.get? j = s.todo_list.get? j)
    ∧ (execute_step env s).pending_user_input.isSome = true
    ∧ (execute_step env s).current_agent = "executor" := by
  have key := execute_step_sentinel env s h step hstep n hn hne tool htool
    sch hsch hti fields hsynth hreq
  rw [key]
  refine ⟨rfl, rfl, rfl, rfl, rfl, ?_, ?_, rfl, rfl⟩
  · simp only [List.get?_eq_getElem?]
    rw [List.getElem?_set_self (by simpa using h)]
  · intro j hj
    simp only [List.get?_eq_getElem?]
    rw [List.getElem?_set_ne (fun hc => hj hc.symm)]

end AgentFramework

namespace AgentFramework

/-- A concrete registered tool used by the suspension scenario. -/
def emailInvoker : Invoker := fun _ => .ok (.str "sent")

/-- Schema of the concrete `send_email` tool. -/
def emailSchema : ToolSchema :=
  { name := "send_email", description := "send an email",
    requires_user_config := true }

/-- The sentinel dict a parameter-synthesis call may return. -/
def sentinelFields : Dict :=
  [("requires_user_input", .bool true),
   ("missing_params", .arr [.str "smtp_server"]),
   ("reason", .str "needs SMTP")]

/-- Executor environment whose parameter-synthesis LLM always returns the
`requires_user_input` sentinel. -/
def sentinelEnv : ExecEnv :=
  { getTool := fun n => if n == "send_email" then some emailInvoker else none
    getSchema := fun n => if n == "send_email" then some emailSchema else none
    synth := fun _ _ _ _ => some (.obj sentinelFields)
    now := 7 }

/-- A pending step that needs the `send_email` tool and has no
`tool_input` yet. -/
def sentinelStep : TaskStep :=
  { id := "step_1", title := "send the email", tool_name := some "send_email" }

/-- A state about to execute `sentinelStep`. -/
def sentinelState : AgentState :=
  { user_input := "email bob", todo_list := [sentinelStep] }

/-- Witness for claim C6 at the concrete suspension scenario. -/
theorem execute_step_suspends_on_sentinel_witness :
    (execute_step sentinelEnv sentinelState).pending_user_input =
      some { step_id := "step_1", tool_name := some "send_email",
             missing_params := some (.arr [.str "smtp_server"]),
             reason := some (.str "needs SMTP") }
    ∧ ((execute_step sentinelEnv sentinelState).todo_list.get? 0).map
        (fun st => st.status) = some .running
    ∧ route (execute_step sentinelEnv sentinelState) = .end_ := by
  have key := execute_step_suspends_on_sentinel sentinelEnv sentinelState
    (by decide) sentinelStep rfl "send_email" rfl rfl emailInvoker rfl
    emailSchema rfl rfl sentinelFields rfl rfl
  exact ⟨by rw [key.1]; rfl, key.2.1, key.2.2⟩

/-- Witness for claim C10 at the concrete suspension scenario. -/
theorem execute_step_sentinel_frame_witness :
    (execute_step sentinelEnv sentinelState).current_step_index = 0
    ∧ (execute_step sentinelEnv sentinelState).step_results = []
    ∧ (execute_step sentinelEnv sentinelState).final_status = .pending
    ∧ (execute_step sentinelEnv sentinelState).error_info = none
    ∧ (execute_step sentinelEnv sentinelState).todo_list.get? 0 =
        some { sentinelStep with status := .running, started_at := some 7 }
    ∧ (execute_step sentinelEnv sentinelState).pending_user_input.isSome = true := by
  obtain ⟨h1, h2, h3, h4, h5, h6, h7, h8, h9⟩ :=
    execute_step_sentinel_frame sentinelEnv sentinelState (by decide) sentinelStep
      rfl "send_email" rfl rfl emailInvoker rfl emailSchema rfl rfl
      sentinelFields rfl rfl
  exact ⟨h1, h2, h3, h4, h6, h8⟩

end AgentFramework

namespace AgentFramework

/-- One Executor attempt on a step whose tool name is not registered:
`ToolNotFound` is raised and folded into the retry branch. -/
theorem execute_step_tool_not_found (env : ExecEnv) (s : AgentState)
    (h : s.current_step_index < s.todo_list.length)
    (step : TaskStep) (hstep : s.todo_list.get? s.current_step_index = some step)
    (n : String) (hn : step.tool_name = some n) (hne : (n == "") = false)
    (htool : env.getTool n = none) :
    execute_step env s =
      (if step.retry_count + 1 < MAX_RETRY_COUNT then
        { s with
          todo_list := s.todo_list.set s.current_step_index
            { step with
                status := .pending, started_at := some env.now,
                error := some ("Tool not found: " ++ n),
                retry_count := step.retry_count + 1 },
          current_agent := "executor" }
      else
        { s with
          todo_list := s.todo_list.set s.current_step_index
            { step with
                status := .failed, started_at := some env.now,
                error := some ("Tool not found: " ++ n),
                retry_count := step.retry_count + 1 },
          current_agent := "executor",
          error_info := some ("Step failed after " ++ toString MAX_RETRY_COUNT ++
            " retries: " ++ ("Tool not found: " ++ n)),
          final_status := .failed }) := by
  simp only [execute_step, executeToolStep, if_pos h, hstep, hn, hne, htool,
    strOptTruthy, Option.getD_some, Bool.not_eq_true]
  simp [execute_step_except, List.getElem?_set_self h, List.set_set, hn]
  intro h'
  subst h'
  simp at hne



/-- One Executor attempt on a step whose registered tool deterministically
raises: the `ToolFailed` error is folded into the retry branch. -/
theorem execute_step_invoke_err (env : ExecEnv) (s : AgentState)
    (h : s.current_step_index < s.todo_list.length)
    (step : TaskStep) (hstep : s.todo_list.get? s.current_step_index = some step)
    (n : String) (hn : step.tool_name = some n) (hne : (n == "") = false)
    (tool : Invoker) (htool : env.getTool n = some tool)
    (sch : ToolSchema) (hsch : env.getSchema n = some sch)
    (d : Dict) (hd : step.tool_input = some d) (hdne : d.isEmpty = false)
    (msg : String) (hinv : tool d = .err msg) :
    execute_step env s =
      (if step.retry_count + 1 < MAX_RETRY_COUNT then
        { s with
          todo_list := s.todo_list.set s.current_step_index
            { step with
                status := .pending, started_at := some env.now,
                error := some ("Tool execution failed: " ++ msg),
                retry_count := step.retry_count + 1 },
          current_agent := "executor" }
      else
        { s with
          todo_list := s.todo_list.set s.current_step_index
            { step with
                status := .failed, started_at := some env.now,
                error := some ("Tool execution failed: " ++ msg),
                retry_count := step.retry_count + 1 },
          current_agent := "executor",
          error_info := some ("Step failed after " ++ toString MAX_RETRY_COUNT ++
            " retries: " ++ ("Tool execution failed: " ++ msg)),
          final_status := .failed }) := by
  simp only [execute_step, executeToolStep, if_pos h, hstep, hn, hne, htool, hsch,
    hd, hdne, hinv, strOptTruthy, dictTruthy, Option.getD_some, Bool.not_eq_true]
  simp [execute_step_except, List.getElem?_set_self h, List.set_set, hn, hd, hinv]
  intro h'
  subst h'
  simp at hne



/-- Retry branch of a failing invocation: the attempt leaves the index and
status flags alone and re-enqueues the step with `retry_count` bumped. -/
theorem execute_step_invoke_err_next (env : ExecEnv) (s : AgentState)
    (h : s.current_step_index < s.todo_list.length)
    (step : TaskStep) (hstep : s.todo_list.get? s.current_step_index = some step)
    (n : String) (hn : step.tool_name = some n) (hne : (n == "") = false)
    (tool : Invoker) (htool : env.getTool n = some tool)
    (sch : ToolSchema) (hsch : env.getSchema n = some sch)
    (d : Dict) (hd : step.tool_input = some d) (hdne : d.isEmpty = false)
    (msg : String) (hinv : tool d = .err msg)
    (hlt : step.retry_count + 1 < MAX_RETRY_COUNT) :
    (execute_step env s).current_step_index = s.current_step_index
    ∧ (execute_step env s).todo_list.length = s.todo_list.length
    ∧ (execute_step env s).todo_list.get? s.current_step_index =
        some { step with
                 status := .pending, started_at := some env.now,
                 error := some ("Tool execution failed: " ++ msg),
                 retry_count := step.retry_count + 1 }
    ∧ (execute_step env s).final_status = s.final_status
    ∧ (execute_step env s).pending_user_input = s.pending_user_input := by
  have key := execute_step_invoke_err env s h step hstep n hn hne tool htool
    sch hsch d hd hdne msg hinv
  rw [key, if_pos hlt]
  refine ⟨rfl, by simp, ?_, rfl, rfl⟩
  simp only [List.get?_eq_getElem?]
  exact List.getElem?_set_self (by simpa using h)

/-- Terminal branch of a failing invocation: the retry budget is exhausted,
so the state fails with the bounded-retries message. -/
theorem execute_step_invoke_err_terminal (env : ExecEnv) (s : AgentState)
    (h : s.current_step_index < s.todo_list.length)
    (step : TaskStep) (hstep : s.todo_list.get? s.current_step_index = some step)
    (n : String) (hn : step.tool_name = some n) (hne : (n == "") = false)
    (tool : Invoker) (htool : env.getTool n = some tool)
    (sch : ToolSchema) (hsch : env.getSchema n = some sch)
    (d : Dict) (hd : step.tool_input = some d) (hdne : d.isEmpty = false)
    (msg : String) (hinv : tool d = .err msg)
    (hge : MAX_RETRY_COUNT ≤ step.retry_count + 1) :
    (execute_step env s).final_status = .failed
    ∧ (execute_step env s).error_info =
        some ("Step failed after " ++ toString MAX_RETRY_COUNT ++ " retries: " ++
          ("Tool execution failed: " ++ msg))
    ∧ (execute_step env s).todo_list.get? s.current_step_index =
        some { step with
                 status := .failed, started_at := some env.now,
                 error := some ("Tool execution failed: " ++ msg),
                 retry_count := step.retry_count + 1 }
    ∧ (execute_step env s).current_step_index = s.current_step_index := by
  have key := execute_step_invoke_err env s h step hstep n hn hne tool htool
    sch hsch d hd hdne msg hinv
  rw [key, if_neg (by omega)]
  refine ⟨rfl, rfl, ?_, rfl⟩
  simp only [List.get?_eq_getElem?]
  exact List.getElem?_set_self (by simpa using h)



/-- Claim C2: whenever executing the current step raises an error, the
Executor sets the step failed, records the message, increments
`retry_count`; below `MAX_RETRY_COUNT` (3) it resets the step to pending
with `current_step_index` unchanged, else it fails terminally with
"Step failed after 3 retries".  Consequently a step whose tool
deterministically fails is attempted exactly `MAX_RETRY_COUNT` times —
three executor routings, then end — terminating with `final_status =
failed`, and `retry_count` never exceeds `MAX_RETRY_COUNT`. -/
theorem executor_retry_bound (env : ExecEnv) (s : AgentState)
    (h : s.current_step_index < s.todo_list.length)
    (step : TaskStep) (hstep : s.todo_list.get? s.current_step_index = some step)
    (n : String) (hn : step.tool_name = some n) (hne : (n == "") = false)
    (tool : Invoker) (htool : env.getTool n = some tool)
    (sch : ToolSchema) (hsch : env.getSchema n = some sch)
    (d : Dict) (hd : step.tool_input = some d) (hdne : d.isEmpty = false)
    (msg : String) (hinv : tool d = .err msg) :
    (step.retry_count + 1 < MAX_RETRY_COUNT →
      ((execute_step env s).todo_list.get? s.current_step_index).map
          (fun st => (st.status, st.error, st.retry_count)) =
          some (TaskStatus.pending, some ("Tool execution failed: " ++ msg),
            step.retry_count + 1)
      ∧ (execute_step env s).current_step_index = s.current_step_index
      ∧ (execute_step env s).final_status = s.final_status)
    ∧ (MAX_RETRY_COUNT ≤ step.retry_count + 1 →
      ((execute_step env s).todo_list.get? s.current_step_index).map
          (fun st => (st.status, st.error, st.retry_count)) =
          some (TaskStatus.failed, some ("Tool execution failed: " ++ msg),
            step.retry_count + 1)
      ∧ (execute_step env s).final_status = .failed
      ∧ (execute_step env s).error_info =
          some ("Step failed after " ++ toString MAX_RETRY_COUNT ++ " retries: " ++
            ("Tool execution failed: " ++ msg)))
    ∧ (step.retry_count = 0 → s.final_status = .pending →
       s.pending_user_input = none →
    route s = .executor
    ∧ route (execute_step env s) = .executor
    ∧ route (execute_step env (execute_step env s)) = .executor
    ∧ (execute_step env (execute_step env (execute_step env s))).final_status = .failed
    ∧ (execute_step env (execute_step env (execute_step env s))).error_info =
        some ("Step failed after " ++ toString MAX_RETRY_COUNT ++ " retries: " ++
          ("Tool execution failed: " ++ msg))
    ∧ ((execute_step env (execute_step env (execute_step env s))).todo_list.get?
        s.current_step_index).map (fun st => (st.status, st.retry_count)) =
        some (TaskStatus.failed, MAX_RETRY_COUNT)
    ∧ route (execute_step env (execute_step env (execute_step env s))) = .end_
    ∧ ((execute_step env s).todo_list.get? s.current_step_index).map
        (fun st => (st.status, st.retry_count)) = some (TaskStatus.pending, 1)
    ∧ ((execute_step env (execute_step env s)).todo_list.get? s.current_step_index).map
        (fun st => (st.status, st.retry_count)) = some (TaskStatus.pending, 2)) := by
  refine ⟨?_, ?_, ?_⟩
  · intro hlt
    obtain ⟨a1i, a1len, a1get, a1fs, a1pu⟩ :=
      execute_step_invoke_err_next env s h step hstep n hn hne tool htool
        sch hsch d hd hdne msg hinv hlt
    exact ⟨by rw [a1get]; rfl, a1i, a1fs⟩
  · intro hge
    obtain ⟨t1, t2, t3, t4⟩ :=
      execute_step_invoke_err_terminal env s h step hstep n hn hne tool htool
        sch hsch d hd hdne msg hinv hge
    exact ⟨by rw [t3]; rfl, t1, t2⟩
  intro hr0 hfs hpu
  -- attempt 1 (retry branch)
  obtain ⟨a1i, a1len, a1get, a1fs, a1pu⟩ :=
    execute_step_invoke_err_next env s h step hstep n hn hne tool htool
      sch hsch d hd hdne msg hinv (by rw [hr0]; decide)
  have h1 : (execute_step env s).current_step_index <
      (execute_step env s).todo_list.length := by
    rw [a1i, a1len]; exact h
  have hstep1 : (execute_step env s).todo_list.get?
      (execute_step env s).current_step_index =
      some { step with
               status := .pending, started_at := some env.now,
               error := some ("Tool execution failed: " ++ msg),
               retry_count := step.retry_count + 1 } := by
    rw [a1i]; exact a1get
  -- attempt 2 (retry branch)
  obtain ⟨a2i, a2len, a2get, a2fs, a2pu⟩ :=
    execute_step_invoke_err_next env (execute_step env s) h1 _ hstep1 n hn hne
      tool htool sch hsch d hd hdne msg hinv
      (by show step.retry_count + 1 + 1 < MAX_RETRY_COUNT; rw [hr0]; decide)
  have h2 : (execute_step env (execute_step env s)).current_step_index <
      (execute_step env (execute_step env s)).todo_list.length := by
    rw [a2i, a2len]; exact h1
  have hstep2 : (execute_step env (execute_step env s)).todo_list.get?
      (execute_step env (execute_step env s)).current_step_index =
      some { step with
               status := .pending, started_at := some env.now,
               error := some ("Tool execution failed: " ++ msg),
               retry_count := step.retry_count + 1 + 1 } := by
    rw [a2i]; exact a2get
  -- attempt 3 (terminal branch)
  obtain ⟨t1, t2, t3, t4⟩ :=
    execute_step_invoke_err_terminal env (execute_step env (execute_step env s))
      h2 _ hstep2 n hn hne tool htool sch hsch d hd hdne msg hinv
      (by show MAX_RETRY_COUNT ≤ step.retry_count + 1 + 1 + 1; rw [hr0]; decide)
  refine ⟨route_executor s hfs hpu h, ?_, ?_, t1, t2, ?_, route_failed _ t1,
    ?_, ?_⟩
  · exact route_executor _ (a1fs.trans hfs) (a1pu.trans hpu) h1
  · exact route_executor _ ((a2fs.trans a1fs).trans hfs) ((a2pu.trans a1pu).trans hpu) h2
  · rw [a2i, a1i] at t3
    rw [t3]
    simp [hr0, MAX_RETRY_COUNT]
  · rw [a1get]
    simp [hr0]
  · rw [a1i] at a2get
    rw [a2get]
    simp [hr0]

end AgentFramework

namespace AgentFramework

/-- A concrete registered tool that always raises. -/
def failTool : Invoker := fun _ => .err "boom"

/-- Schema of the concrete always-failing tool. -/
def failSchema : ToolSchema := { name := "always_fails", description := "always fails" }

/-- Executor environment exposing only the always-failing tool. -/
def failEnv : ExecEnv :=
  { getTool := fun n => if n == "always_fails" then some failTool else none
    getSchema := fun n => if n == "always_fails" then some failSchema else none
    synth := fun _ _ _ _ => none
    now := 3 }

/-- A fresh step bound to the always-failing tool with its input filled. -/
def failStep : TaskStep :=
  { id := "step_f", title := "doomed step", tool_name := some "always_fails",
    tool_input := some [("x", .num 1)] }

/-- A state about to execute `failStep`. -/
def failState : AgentState := { user_input := "do the thing", todo_list := [failStep] }

/-- Witness for claim C2: the deterministically failing tool is attempted
exactly three times and the run terminates with `final_status = failed`. -/
theorem executor_retry_bound_witness :
    route failState = .executor
    ∧ route (execute_step failEnv failState) = .executor
    ∧ route (execute_step failEnv (execute_step failEnv failState)) = .executor
    ∧ (execute_step failEnv (execute_step failEnv (execute_step failEnv
        failState))).final_status = .failed
    ∧ (execute_step failEnv (execute_step failEnv (execute_step failEnv
        failState))).error_info =
        some "Step failed after 3 retries: Tool execution failed: boom"
    ∧ ((execute_step failEnv (execute_step failEnv (execute_step failEnv
        failState))).todo_list.get? failState.current_step_index).map
        (fun st => (st.status, st.retry_count)) = some (TaskStatus.failed, 3)
    ∧ route (execute_step failEnv (execute_step failEnv (execute_step failEnv
        failState))) = .end_ := by
  obtain ⟨dich1, dich2, chain⟩ :=
    executor_retry_bound failEnv failState (by decide) failStep rfl
      "always_fails" rfl rfl failTool rfl failSchema rfl
      [("x", JValue.num 1)] rfl rfl "boom" rfl
  obtain ⟨c1, c2, c3, c4, c5, c6, c7, c8, c9⟩ := chain rfl rfl rfl
  refine ⟨c1, c2, c3, c4, ?_, ?_, c7⟩
  · rw [c5]; rfl
  · rw [c6]; rfl

end AgentFramework

namespace AgentFramework

/-- Retry branch of a `ToolNotFound` attempt: the step is re-enqueued as
pending with `retry_count` bumped and the lookup error recorded. -/
theorem execute_step_tool_not_found_next (env : ExecEnv) (s : AgentState)
    (h : s.current_step_index < s.todo_list.length)
    (step : TaskStep) (hstep : s.todo_list.get? s.current_step_index = some step)
    (n : String) (hn : step.tool_name = some n) (hne : (n == "") = false)
    (htool : env.getTool n = none)
    (hlt : step.retry_count + 1 < MAX_RETRY_COUNT) :
    (execute_step env s).current_step_index = s.current_step_index
    ∧ (execute_step env s).todo_list.length = s.todo_list.length
    ∧ (execute_step env s).todo_list.get? s.current_step_index =
        some { step with
                 status := .pending, started_at := some env.now,
                 error := some ("Tool not found: " ++ n),
                 retry_count := step.retry_count + 1 }
    ∧ (execute_step env s).final_status = s.final_status
    ∧ (execute_step env s).pending_user_input = s.pending_user_input := by
  have key := execute_step_tool_not_found env s h step hstep n hn hne htool
  rw [key, if_pos hlt]
  refine ⟨rfl, by simp, ?_, rfl, rfl⟩
  simp only [List.get?_eq_getElem?]
  exact List.getElem?_set_self (by simpa using h)

/-- Terminal branch of a `ToolNotFound` attempt: the retry budget is
exhausted, so the state fails with the bounded-retries message. -/
theorem execute_step_tool_not_found_terminal (env : ExecEnv) (s : AgentState)
    (h : s.current_step_index < s.todo_list.length)
    (step : TaskStep) (hstep : s.todo_list.get? s.current_step_index = some step)
    (n : String) (hn : step.tool_name = some n) (hne : (n == "") = false)
    (htool : env.getTool n = none)
    (hge : MAX_RETRY_COUNT ≤ step.retry_count + 1) :
    (execute_step env s).final_status = .failed
    ∧ (execute_step env s).error_info =
        some ("Step failed after " ++ toString MAX_RETRY_COUNT ++ " retries: " ++
          ("Tool not found: " ++ n))
    ∧ (execute_step env s).todo_list.get? s.current_step_index =
        some { step with
                 status := .failed, started_at := some env.now,
                 error := some ("Tool not found: " ++ n),
                 retry_count := step.retry_count + 1 }
    ∧ (execute_step env s).current_step_index = s.current_step_index := by
  have key := execute_step_tool_not_found env s h step hstep n hn hne htool
  rw [key, if_neg (by omega)]
  refine ⟨rfl, rfl, ?_, rfl⟩
  simp only [List.get?_eq_getElem?]
  exact List.getElem?_set_self (by simpa using h)

/-- Claim C4 (amended): an unresolvable `tool_name` is not terminal on the
first attempt — the `ToolNotFound` error flows through the ordinary retry
branch: while `retry_count + 1 < MAX_RETRY_COUNT` the step is reset to
pending and re-routed to the Executor, and only after `MAX_RETRY_COUNT`
attempts does the workflow end with `final_status = failed` and an
`error_info` mentioning the unresolved tool. -/
theorem executor_tool_not_found_retried (env : ExecEnv) (s : AgentState)
    (h : s.current_step_index < s.todo_list.length)
    (step : TaskStep) (hstep : s.todo_list.get? s.current_step_index = some step)
    (n : String) (hn : step.tool_name = some n) (hne : (n == "") = false)
    (htool : env.getTool n = none) :
    (step.retry_count + 1 < MAX_RETRY_COUNT →
      ((execute_step env s).todo_list.get? s.current_step_index).map
          (fun st => (st.status, st.error, st.retry_count)) =
          some (TaskStatus.pending, some ("Tool not found: " ++ n),
            step.retry_count + 1)
      ∧ (execute_step env s).current_step_index = s.current_step_index
      ∧ (execute_step env s).final_status = s.final_status)
    ∧ (MAX_RETRY_COUNT ≤ step.retry_count + 1 →
      (execute_step env s).final_status = .failed
      ∧ (execute_step env s).error_info =
          some ("Step failed after " ++ toString MAX_RETRY_COUNT ++ " retries: " ++
            ("Tool not found: " ++ n)))
    ∧ (step.retry_count = 0 → s.final_status = .pending →
       s.pending_user_input = none →
    route (execute_step env s) = .executor
    ∧ route (execute_step env (execute_step env s)) = .executor
    ∧ (execute_step env (execute_step env (execute_step env s))).final_status = .failed
    ∧ (execute_step env (execute_step env (execute_step env s))).error_info =
        some ("Step failed after " ++ toString MAX_RETRY_COUNT ++ " retries: " ++
          ("Tool not found: " ++ n))
    ∧ route (execute_step env (execute_step env (execute_step env s))) = .end_) := by
  refine ⟨?_, ?_, ?_⟩
  · intro hlt
    obtain ⟨a1i, a1len, a1get, a1fs, a1pu⟩ :=
      execute_step_tool_not_found_next env s h step hstep n hn hne htool hlt
    exact ⟨by rw [a1get]; rfl, a1i, a1fs⟩
  · intro hge
    obtain ⟨t1, t2, t3, t4⟩ :=
      execute_step_tool_not_found_terminal env s h step hstep n hn hne htool hge
    exact ⟨t1, t2⟩
  intro hr0 hfs hpu
  obtain ⟨a1i, a1len, a1get, a1fs, a1pu⟩ :=
    execute_step_tool_not_found_next env s h step hstep n hn hne htool
      (by rw [hr0]; decide)
  have h1 : (execute_step env s).current_step_index <
      (execute_step env s).todo_list.length := by
    rw [a1i, a1len]; exact h
  have hstep1 : (execute_step env s).todo_list.get?
      (execute_step env s).current_step_index =
      some { step with
               status := .pending, started_at := some env.now,
               error := some ("Tool not found: " ++ n),
               retry_count := step.retry_count + 1 } := by
    rw [a1i]; exact a1get
  obtain ⟨a2i, a2len, a2get, a2fs, a2pu⟩ :=
    execute_step_tool_not_found_next env (execute_step env s) h1 _ hstep1 n hn hne
      htool (by show step.retry_count + 1 + 1 < MAX_RETRY_COUNT; rw [hr0]; decide)
  have h2 : (execute_step env (execute_step env s)).current_step_index <
      (execute_step env (execute_step env s)).todo_list.length := by
    rw [a2i, a2len]; exact h1
  have hstep2 : (execute_step env (execute_step env s)).todo_list.get?
      (execute_step env (execute_step env s)).current_step_index =
      some { step with
               status := .pending, started_at := some env.now,
               error := some ("Tool not found: " ++ n),
               retry_count := step.retry_count + 1 + 1 } := by
    rw [a2i]; exact a2get
  obtain ⟨t1, t2, t3, t4⟩ :=
    execute_step_tool_not_found_terminal env (execute_step env (execute_step env s))
      h2 _ hstep2 n hn hne htool
      (by show MAX_RETRY_COUNT ≤ step.retry_count + 1 + 1 + 1; rw [hr0]; decide)
  refine ⟨?_, ?_, t1, t2, route_failed _ t1⟩
  · exact route_executor _ (a1fs.trans hfs) (a1pu.trans hpu) h1
  · exact route_executor _ ((a2fs.trans a1fs).trans hfs) ((a2pu.trans a1pu).trans hpu) h2

/-- Executor environment with an empty tool registry. -/
def noToolEnv : ExecEnv :=
  { getTool := fun _ => none, getSchema := fun _ => none,
    synth := fun _ _ _ _ => none, now := 5 }

/-- A step naming a tool that is not registered. -/
def missingToolStep : TaskStep :=
  { id := "step_m", title := "use missing tool", tool_name := some "nonexistent" }

/-- A state about to execute `missingToolStep`. -/
def missingToolState : AgentState :=
  { user_input := "run", todo_list := [missingToolStep] }

/-- Counterexample to claim C4 as stated: after the first `ToolNotFound`
failure the thread is NOT terminal — `final_status` is still pending, the
step's `retry_count` is 1, and the Supervisor routes back to the Executor,
i.e. the step is retried. -/
theorem tool_not_found_counterexample :
    (execute_step noToolEnv missingToolState).final_status ≠ .failed
    ∧ ((execute_step noToolEnv missingToolState).todo_list.get? 0).map
        (fun st => (st.status, st.retry_count)) = some (TaskStatus.pending, 1)
    ∧ route (execute_step noToolEnv missingToolState) = .executor := by
  refine ⟨by decide, by decide, by decide⟩

/-- Witness for claim C4 (amended) at the concrete missing-tool scenario. -/
theorem executor_tool_not_found_retried_witness :
    route (execute_step noToolEnv missingToolState) = .executor
    ∧ route (execute_step noToolEnv (execute_step noToolEnv missingToolState)) =
        .executor
    ∧ (execute_step noToolEnv (execute_step noToolEnv (execute_step noToolEnv
        missingToolState))).final_status = .failed
    ∧ (execute_step noToolEnv (execute_step noToolEnv (execute_step noToolEnv
        missingToolState))).error_info =
        some "Step failed after 3 retries: Tool not found: nonexistent"
    ∧ route (execute_step noToolEnv (execute_step noToolEnv (execute_step noToolEnv
        missingToolState))) = .end_ := by
  obtain ⟨dich1, dich2, chain⟩ :=
    executor_tool_not_found_retried noToolEnv missingToolState (by decide)
      missingToolStep rfl "nonexistent" rfl rfl rfl
  obtain ⟨c1, c2, c3, c4, c5⟩ := chain rfl rfl rfl
  exact ⟨c1, c2, c3, by rw [c4]; rfl, c5⟩

end AgentFramework

namespace AgentFramework

/-- Claim C7: whenever the Executor completes the current step without
error — the tool path with a successful invocation, or the no-tool path —
it appends exactly one record `{step_id, step_title, result:
step.tool_output}` to `step_results`, increments `current_step_index` by
exactly one, marks the step completed with `completed_at` set, and for a
tool step stores the tool result wrapped as `{success: true, data: result}`
in `tool_output`. -/
theorem executor_success_step (env : ExecEnv) (s : AgentState)
    (h : s.current_step_index < s.todo_list.length)
    (step : TaskStep) (hstep : s.todo_list.get? s.current_step_index = some step) :
    (∀ n tool sch d v, step.tool_name = some n → (n == "") = false →
      env.getTool n = some tool → env.getSchema n = some sch →
      step.tool_input = some d → d.isEmpty = false → tool d = .ok v →
      execute_step env s = { s with
        todo_list := s.todo_list.set s.current_step_index
          { step with
              status := .completed, started_at := some env.now,
              completed_at := some env.now,
              tool_output := some (.obj [("success", .bool true), ("data", v)]) },
        step_results := s.step_results ++
          [{ step_id := step.id, step_title := step.title,
             result := some (.obj [("success", .bool true), ("data", v)]) }],
        current_step_index := s.current_step_index + 1,
        current_agent := "executor",
        updated_at := env.now })
    ∧ (strOptTruthy step.tool_name = false →
      execute_step env s = { s with
        todo_list := s.todo_list.set s.current_step_index
          { step with
              status := .completed, started_at := some env.now,
              completed_at := some env.now },
        step_results := s.step_results ++
          [{ step_id := step.id, step_title := step.title,
             result := step.tool_output }],
        current_step_index := s.current_step_index + 1,
        current_agent := "executor",
        updated_at := env.now }) := by
  constructor
  · intro n tool sch d v hn hne htool hsch hd hdne hok
    have hno : dictGet [("success", JValue.bool true), ("data", v)]
        "requires_user_input" = none := rfl
    simp only [execute_step, executeToolStep, execute_step_finish, if_pos h, hstep,
      hn, hne, htool, hsch, hd, hdne, hok, strOptTruthy, dictTruthy,
      Option.getD_some, Bool.not_eq_true, hno]
    simp [hn, hno, hok, optTruthy]
    intro h'
    subst h'
    simp at hne
  · intro hnone
    simp only [execute_step, execute_step_finish, if_pos h, hstep, hnone]
    simp

end AgentFramework

namespace AgentFramework

/-- A concrete calculator-like tool returning 14. -/
def calcTool : Invoker := fun _ => .ok (.num 14)

/-- Schema of the concrete calculator tool. -/
def calcSchema : ToolSchema := { name := "calculator", description := "evaluate" }

/-- Executor environment exposing the calculator tool. -/
def okEnv : ExecEnv :=
  { getTool := fun n => if n == "calculator" then some calcTool else none
    getSchema := fun n => if n == "calculator" then some calcSchema else none
    synth := fun _ _ _ _ => none
    now := 11 }

/-- A step invoking the calculator with its input already filled. -/
def okStep : TaskStep :=
  { id := "step_c", title := "compute", tool_name := some "calculator",
    tool_input := some [("expression", .str "2 + 3 * 4")] }

/-- A state about to execute `okStep`. -/
def okState : AgentState := { user_input := "compute", todo_list := [okStep] }

/-- A step that needs no tool. -/
def greetStep : TaskStep := { id := "step_g", title := "say hi" }

/-- A state about to execute `greetStep`. -/
def greetState : AgentState := { user_input := "greet", todo_list := [greetStep] }

/-- Witness for claim C7: a successful tool step and a no-tool step, each
appending one record and advancing the index by one. -/
theorem executor_success_step_witness :
    (execute_step okEnv okState).step_results =
      [{ step_id := "step_c", step_title := "compute",
         result := some (.obj [("success", .bool true), ("data", .num 14)]) }]
    ∧ (execute_step okEnv okState).current_step_index = 1
    ∧ (execute_step okEnv okState).todo_list =
      [{ okStep with
           status := .completed, started_at := some 11, completed_at := some 11,
           tool_output := some (.obj [("success", .bool true), ("data", .num 14)]) }]
    ∧ (execute_step okEnv greetState).step_results =
      [{ step_id := "step_g", step_title := "say hi", result := none }]
    ∧ (execute_step okEnv greetState).current_step_index = 1
    ∧ (execute_step okEnv greetState).todo_list =
      [{ greetStep with
           status := .completed, started_at := some 11, completed_at := some 11 }] := by
  have A := (executor_success_step okEnv okState (by decide) okStep rfl).1
    "calculator" calcTool calcSchema [("expression", .str "2 + 3 * 4")] (.num 14)
    rfl rfl rfl rfl rfl rfl rfl
  have B := (executor_success_step okEnv greetState (by decide) greetStep rfl).2 rfl
  refine ⟨by rw [A]; rfl, by rw [A]; rfl, by rw [A]; rfl,
          by rw [B]; rfl, by rw [B]; rfl, by rw [B]; rfl⟩

end AgentFramework

namespace AgentFramework

/-- Python `str(v)` for the values that can reach `error_info` on the
Validator's LLM branch; containers are abstracted (no claim reads them). -/
def pyStrOfJValue : JValue → String
  | .str s => s
  | .null => "None"
  | .bool true => "True"
  | .bool false => "False"
  | .num n => toString n
  | .arr _ => "<list>"
  | .obj _ => "<dict>"

/-- Environment of `ValidatorAgent.validate`: the validation chat-generator
call and the clock.  `.error` models an exception raised by the LLM chain;
`.ok none` models a `JSONDecodeError` of the response; `.ok (some v)` is
the parsed JSON. -/
structure VEnv where
  llm : AgentState → Except String (Option JValue)
  now : Nat

/-- `validator.py`, `ValidatorAgent.validate`: short-circuit on a failed
step, otherwise ask the chat generator to judge the run and apply its
verdict. -/
def validate (env : VEnv) (state : AgentState) : AgentState :=
  let todo_list := state.todo_list
  -- 1. 检查是否所有步骤都完成
  let all_completed := todo_list.all fun step => decide (step.status = .completed)
  let failed_result : Option AgentState :=
    if all_completed then none
    else
      -- 查找失败的步骤
      match todo_list.filter (fun step => decide (step.status = .failed)) with
      | [] => none
      | first_failed :: _ =>
        let msg := "步骤失败: " ++ first_failed.title ++ " - " ++
          pyStrOfOption first_failed.error
        some { state with final_status := .failed, error_info := some msg }
  match failed_result with
  | some state => state
  | none =>
    -- 2. 使用 LLM 进行深度校验
    match env.llm state with
    | .error e =>
      { state with error_info := some ("Validation error: " ++ e),
                   final_status := .failed }
    | .ok parsed =>
      -- 3. 解析校验结果（parse failure assumes success）
      let result_data : JValue := parsed.getD
        (.obj [("is_successful", .bool true), ("status_message", .str "任务已完成")])
      match result_data with
      | .obj fields =>
        -- 4. 更新状态
        let failure_reason : String :=
          match dictGet fields "failure_reason" with
          | some v => pyStrOfJValue v
          | none => "Unknown error"
        let state :=
          if optTruthy (dictGet fields "is_successful") then
            { state with final_status := .success }
          else
            { state with final_status := .failed, error_info := some failure_reason }
        { state with current_agent := "validator", updated_at := env.now }
      | _ =>
        -- json.loads produced a non-dict: `.get` raises, caught by the try
        { state with error_info := some "Validation error: get",
                     final_status := .failed }

/-- Claim C9: for every state whose `todo_list` contains a step with
`status = failed`, the Validator sets `final_status = failed` and an
`error_info` message identifying that (first failed) step's title and
error, and returns without consulting the Chat Generator — the result is
the same for every generator environment. -/
theorem validator_failed_step (env1 env2 : VEnv) (s : AgentState)
    (hex : ∃ st, st ∈ s.todo_list ∧ st.status = .failed) :
    (∃ first_failed rest,
        s.todo_list.filter (fun st => decide (st.status = .failed)) =
          first_failed :: rest
        ∧ validate env1 s = { s with
            final_status := .failed,
            error_info := some ("步骤失败: " ++ first_failed.title ++ " - " ++
              pyStrOfOption first_failed.error) })
    ∧ validate env1 s = validate env2 s := by
  obtain ⟨st, hmem, hfail⟩ := hex
  have hall : (s.todo_list.all fun step => decide (step.status = .completed)) = false := by
    rw [Bool.eq_false_iff]
    intro hcontra
    rw [List.all_eq_true] at hcontra
    have := hcontra st hmem
    rw [hfail] at this
    simp at this
  cases hf : s.todo_list.filter (fun step => decide (step.status = .failed)) with
  | nil =>
    exfalso
    have hmf : st ∈ s.todo_list.filter (fun step => decide (step.status = .failed)) :=
      List.mem_filter.mpr ⟨hmem, by simp [hfail]⟩
    rw [hf] at hmf
    simp at hmf
  | cons first_failed rest =>
    refine ⟨⟨first_failed, rest, rfl, ?_⟩, ?_⟩
    · simp [validate, hall, hf]
    · simp [validate, hall, hf]

end AgentFramework

namespace AgentFramework

/-- A completed step for the validator scenario. -/
def doneStep : TaskStep := { id := "s1", title := "ok step", status := .completed }

/-- A failed step with a recorded error for the validator scenario. -/
def badStep : TaskStep :=
  { id := "s2", title := "bad step", status := .failed, error := some "exploded" }

/-- A terminated state containing a failed step. -/
def failedValState : AgentState :=
  { user_input := "do it", todo_list := [doneStep, badStep], current_step_index := 2 }

/-- A validator environment whose LLM would report success. -/
def vEnvTrue : VEnv :=
  { llm := fun _ => .ok (some (.obj [("is_successful", .bool true)])), now := 21 }

/-- A validator environment whose LLM call raises. -/
def vEnvRaise : VEnv := { llm := fun _ => .error "LLM down", now := 22 }

/-- Witness for claim C9 at the concrete failed-step state, for two very
different generator environments. -/
theorem validator_failed_step_witness :
    validate vEnvTrue failedValState = { failedValState with
      final_status := .failed,
      error_info := some "步骤失败: bad step - exploded" }
    ∧ validate vEnvTrue failedValState = validate vEnvRaise failedValState := by
  obtain ⟨⟨first_failed, rest, hf, heq⟩, hind⟩ :=
    validator_failed_step vEnvTrue vEnvRaise failedValState
      ⟨badStep, List.mem_cons_of_mem _ (List.mem_cons_self _ _), rfl⟩
  have hf2 : badStep :: ([] : List TaskStep) = first_failed :: rest := hf
  injection hf2 with hb1 hb2
  subst hb1
  exact ⟨heq, hind⟩

end AgentFramework

namespace AgentFramework

/-- `registry.py`: the LangChain `StructuredTool` built by
`StructuredTool.from_function(func, name, description)`, distilled to the
data the framework reads. -/
structure StructuredTool where
  name : String
  description : String
  func : Invoker

/-- `registry.py`: `ToolRegistry` — the `_tools` and `_schemas` dicts. -/
structure ToolRegistry where
  tools : List (String × StructuredTool) := []
  schemas : List (String × ToolSchema) := []

/-- `registry.py`, `ToolRegistry.register_tool`: build the LangChain tool
and assign `self._tools[name]` and `self._schemas[name]` — plain dict
assignment, which overwrites any existing binding. -/
def ToolRegistry.register_tool (r : ToolRegistry) (name : String)
    (func : Invoker) (schema : ToolSchema) : ToolRegistry :=
  let tool : StructuredTool :=
    { name := name, description := schema.description, func := func }
  { r with tools := assocSet r.tools name tool,
           schemas := assocSet r.schemas name schema }

/-- `registry.py`, `ToolRegistry.get_tool`. -/
def ToolRegistry.get_tool (r : ToolRegistry) (name : String) : Option StructuredTool :=
  assocGet r.tools name

/-- `registry.py`, `ToolRegistry.get_schema`. -/
def ToolRegistry.get_schema (r : ToolRegistry) (name : String) : Option ToolSchema :=
  assocGet r.schemas name

/-- Looking a key up right after assigning it yields the assigned value. -/
theorem assocGet_assocSet {α : Type} (d : List (String × α)) (k : String) (v : α) :
    assocGet (assocSet d k v) k = some v := by
  induction d with
  | nil => simp [assocSet, assocGet]
  | cons p rest ih =>
    obtain ⟨k', v'⟩ := p
    by_cases hk : (k' == k) = true
    · simp [assocSet, hk, assocGet, List.find?]
    · have hk2 : (k' == k) = false := by simpa using hk
      simp [assocSet, assocGet, List.find?, hk2]
      simpa [assocGet] using ih

/-- Schemas of the duplicate-registration scenario: same name, different
descriptions. -/
def calcSchemaOne : ToolSchema := { name := "calc", description := "one" }

/-- Second schema registered under the same name. -/
def calcSchemaTwo : ToolSchema := { name := "calc", description := "two" }

/-- First registered invoker. -/
def calcInvOne : Invoker := fun _ => .ok .null

/-- Second registered invoker. -/
def calcInvTwo : Invoker := fun _ => .ok (.num 2)

/-- Registry holding `calc` once. -/
def regOne : ToolRegistry := ToolRegistry.register_tool {} "calc" calcInvOne calcSchemaOne

/-- Registry after registering `calc` a second time. -/
def regTwo : ToolRegistry := regOne.register_tool "calc" calcInvTwo calcSchemaTwo

/-- Counterexample to claim C8 as stated: re-registering an existing name
does not fail and does not leave the previous pair unchanged — the second
schema replaces the first. -/
theorem register_duplicate_counterexample :
    (regTwo.get_schema "calc").map (fun sch => sch.description) = some "two"
    ∧ ¬ (regTwo.get_schema "calc").map (fun sch => sch.description) = some "one"
    ∧ (regTwo.get_tool "calc").map (fun t => t.description) = some "two" := by
  exact ⟨by decide, by decide, rfl⟩

/-- Claim C8 (amended): `register_tool` never rejects a duplicate name —
registering a name already present succeeds and replaces the previously
registered `(tool, schema)` pair with the new one (last write wins). -/
theorem register_tool_overwrites (r : ToolRegistry) (name : String)
    (func : Invoker) (schema : ToolSchema) :
    (r.register_tool name func schema).get_schema name = some schema
    ∧ (r.register_tool name func schema).get_tool name =
        some { name := name, description := schema.description, func := func } := by
  unfold ToolRegistry.register_tool ToolRegistry.get_schema ToolRegistry.get_tool
  exact ⟨assocGet_assocSet _ _ _, assocGet_assocSet _ _ _⟩

end AgentFramework

namespace AgentFramework

/-- One step dict of the planning LLM's parsed output; mirrors the keys
`planner.py` reads with `step_data.get(...)`. -/
structure StepData where
  title : Option String := none
  description : Option String := none
  tool_name : Option String := none

/-- `planner.py`: `PlannerOutput` — parsed intent plus step dicts. -/
structure PlannerOutput where
  intent : ParsedIntent
  steps : List StepData

/-- Environment of `PlannerAgent.plan`: the knowledge search, the planning
LLM call (`.error` models a raised output-parsing failure), the per-index
uuid suffix, and the clock. -/
structure PlanEnv where
  search : String → List String
  llm : String → Except String PlannerOutput
  fresh_id : Nat → String
  now : Nat

/-- The prompt input `planner.py` sends: the user input, extended with the
retrieved context block when it is non-empty. -/
def plan_query (env : PlanEnv) (user_input : String) : String :=
  let context := String.intercalate "\n\n" (env.search user_input)
  if context != "" then user_input ++ "\n\n相关背景知识：\n" ++ context
  else user_input

/-- `planner.py`, `PlannerAgent.plan`: retrieve context, call the planning
LLM, build one `TaskStep` per returned step dict (no truncation), and store
the plan with `current_step_index = 0`. -/
def plan (env : PlanEnv) (state : AgentState) : AgentState :=
  let user_input := state.user_input
  -- 1. RAG 检索相关知识
  let retrieved_docs := env.search user_input
  -- 2. 调用 LLM 进行规划（output-parse failure raises into the except branch）
  match env.llm (plan_query env user_input) with
  | .error e =>
    { state with error_info := some ("Planning error: " ++ e),
                 final_status := .failed }
  | .ok result =>
    -- 3. 构建 TaskStep 列表
    let todo_list : List TaskStep := result.steps.enum.map fun p =>
      { id := "step_" ++ env.fresh_id p.1,
        title := (p.2.title).getD ("Step " ++ toString (p.1 + 1)),
        description := p.2.description,
        tool_name := p.2.tool_name,
        status := .pending }
    -- 4. 更新状态
    { state with
        parsed_intent := some result.intent,
        todo_list := todo_list,
        current_step_index := 0,
        retrieved_docs := retrieved_docs,
        current_agent := "planner",
        updated_at := env.now }

/-- A parsed planning response with 21 steps. -/
def manyStepsOutput : PlannerOutput :=
  { intent := { goal := "g" }, steps := List.replicate 21 {} }

/-- Planning environment whose LLM returns 21 steps. -/
def overEnv : PlanEnv :=
  { search := fun _ => [], llm := fun _ => .ok manyStepsOutput,
    fresh_id := fun i => toString i, now := 1 }

/-- An initial state handed to the Planner. -/
def planInputState : AgentState := { user_input := "long task" }

/-- Counterexample to claim C5 as stated: a Chat Generator response with 21
steps makes the Planner store a `todo_list` longer than `MAX_TASK_STEPS` —
the 20-step cap is requested in the prompt but not enforced in code. -/
theorem planner_over_cap_counterexample :
    MAX_TASK_STEPS < (plan overEnv planInputState).todo_list.length := by
  decide

/-- Claim C5 (amended): the Planner stores exactly one `TaskStep` per step
of the parsed Chat Generator response, so `len(todo_list) ≤ MAX_TASK_STEPS`
holds exactly when the response itself has at most `MAX_TASK_STEPS` steps;
the cap is not enforced against larger responses. -/
theorem planner_todo_length (env : PlanEnv) (s : AgentState) (out : PlannerOutput)
    (hok : env.llm (plan_query env s.user_input) = .ok out) :
    (plan env s).todo_list.length = out.steps.length
    ∧ ((plan env s).todo_list.length ≤ MAX_TASK_STEPS ↔
        out.steps.length ≤ MAX_TASK_STEPS) := by
  have hlen : (plan env s).todo_list.length = out.steps.length := by
    simp [plan, hok]
  exact ⟨hlen, by rw [hlen]⟩

/-- Witness for claim C5 (amended): with the 21-step response the stored
`todo_list` has exactly 21 entries. -/
theorem planner_todo_length_witness :
    (plan overEnv planInputState).todo_list.length = 21 :=
  (planner_todo_length overEnv planInputState manyStepsOutput rfl).1

end AgentFramework

namespace AgentFramework

/-- The node environments wired into `AgentWorkflow`'s graph. -/
structure WorkflowEnv where
  planner : PlanEnv
  executor : ExecEnv
  validator : VEnv

/-- The compiled graph of `workflow.py`: nodes invoked in turn, each
followed by the Supervisor's conditional edge, until `end`; `fuel` bounds
the number of node invocations. -/
def graph_invoke (env : WorkflowEnv) : Nat → AgentState → AgentState
  | 0, state => state
  | fuel + 1, state =>
    match route state with
    | .end_ => state
    | .planner => graph_invoke env fuel (plan env.planner state)
    | .executor => graph_invoke env fuel (execute_step env.executor state)
    | .validator => graph_invoke env fuel (validate env.validator state)

/-- `workflow.py`, `AgentWorkflow.resume`: load the thread's state (raise
`ValueError` when absent), clear `pending_user_input`, store
`user_provided_config` on the state, and re-invoke the graph. -/
def resume (env : WorkflowEnv) (fuel : Nat) (stored : Option AgentState)
    (user_provided_config : Option Dict) : Except String AgentState :=
  match stored with
  | none => .error "No state found for thread"
  | some state =>
    -- 清除等待标记，注入用户配置
    let state := { state with pending_user_input := none,
                              user_provided_config := user_provided_config }
    .ok (graph_invoke env fuel state)

/-- The state checkpointed at the suspension of the concrete `send_email`
scenario. -/
def suspendedState : AgentState := execute_step sentinelEnv sentinelState

/-- Workflow environment for the resume scenario; the parameter-synthesis
LLM deterministically returns the sentinel again. -/
def hitlEnv : WorkflowEnv :=
  { planner := overEnv, executor := sentinelEnv, validator := vEnvTrue }

/-- The configuration the user supplies on resume. -/
def userConfig : Dict := [("smtp_server", .str "smtp.example.com")]

/-- The state resume produces on the concrete scenario. -/
def resumedResult : Except String AgentState :=
  resume hitlEnv 5 (some suspendedState) (some userConfig)

/-- Claim C3 evaluated at the failing input: `resume` does clear
`pending_user_input` and stores `user_provided_config` on the state, but it
never merges the user's mapping into the suspended step's `tool_input` —
the step re-enters the Executor with `tool_input` still `None`, parameter
synthesis runs again (it is not skipped), and the thread suspends again
with the user's configuration ignored. -/
theorem resume_does_not_merge_user_config :
    resumedResult.toOption.map (fun s => s.pending_user_input.isSome) = some true
    ∧ resumedResult.toOption.map
        (fun s => (s.todo_list.get? 0).map (fun st => st.tool_input)) =
        some (some none)
    ∧ resumedResult.toOption.map (fun s => s.user_provided_config) =
        some (some userConfig) := by
  exact ⟨rfl, rfl, rfl⟩

end AgentFramework
